import Mathlib

/-!
Shallow embedding of the staged transform-and-load ETL pipeline
(AndreIvanov79/ETL-project) and proofs about it.

The embedding follows the Python source files:
  src/transform/data_validator.py          (rules, SchemaValidator, DataCleaner)
  src/transform/weather_transformer.py     (the fixed weather schema)
  src/transform/transform_utils/weather_transform.py
  src/extract/api_client.py                (ApiClient.make_request)
  src/db/db_manager.py                     (DBManager methods)
  src/db/sql_templates.py                  (table shapes)

Python values parsed from JSON are modelled by `Json` below, where
`Json.null` plays the role of Python `None`.
-/

/-- Quote string holding a single ASCII apostrophe (codepoint 39), used when
rendering Python error messages that quote field names. -/
def apos : String := (Char.ofNat 39).toString

/-- Model of a Python value obtained from `json.load`: `null` is Python `None`,
numbers are modelled by rationals. -/
inductive Json where
  | null
  | bool (b : Bool)
  | num (q : ℚ)
  | str (s : String)
  | arr (xs : List Json)
  | obj (fields : List (String × Json))

mutual

/-- Structural equality test on values, modelling Python `==` for the
comparisons this codebase performs on JSON-derived values. -/
def Json.beq : Json → Json → Bool
  | .null, .null => true
  | .bool a, .bool b => a == b
  | .num a, .num b => a == b
  | .str a, .str b => a == b
  | .arr xs, .arr ys => Json.beqList xs ys
  | .obj fs, .obj gs => Json.beqFields fs gs
  | _, _ => false

/-- Elementwise equality of value lists. -/
def Json.beqList : List Json → List Json → Bool
  | [], [] => true
  | x :: xs, y :: ys => Json.beq x y && Json.beqList xs ys
  | _, _ => false

/-- Elementwise equality of key-value lists. -/
def Json.beqFields : List (String × Json) → List (String × Json) → Bool
  | [], [] => true
  | f :: fs, g :: gs => f.1 == g.1 && Json.beq f.2 g.2 && Json.beqFields fs gs
  | _, _ => false

end

instance : BEq Json := ⟨Json.beq⟩

/-- Python type name of a value, as it appears in runtime error messages.
JSON numbers are rendered as float, the only numeric payloads in this repo. -/
def pyTypeName : Json → String
  | .null => "NoneType"
  | .bool _ => "bool"
  | .num _ => "float"
  | .str _ => "str"
  | .arr _ => "list"
  | .obj _ => "dict"

/-- Truthiness of a value under Python `bool(...)`. -/
def pyFalsy : Json → Bool
  | .null => true
  | .bool b => !b
  | .num q => q == 0
  | .str s => s.isEmpty
  | .arr xs => xs.isEmpty
  | .obj fs => fs.isEmpty

/-- Model of Python `dict.get(key)` on an association list: the value if the
key is present, `None` (here `Json.null`) otherwise. -/
def pyGet (fields : List (String × Json)) (key : String) : Json :=
  match fields.find? (fun kv => kv.1 == key) with
  | some kv => kv.2
  | none => .null

/-- Model of Python `str.strip()`: remove leading and trailing whitespace
characters (the ASCII whitespace relevant to this codebase). -/
def pyStrip (s : String) : String :=
  ⟨((s.data.dropWhile Char.isWhitespace).reverse.dropWhile Char.isWhitespace).reverse⟩

/-- Model of Python `str.lower()` for the ASCII country names of this
codebase. -/
def pyLower (s : String) : String := ⟨s.data.map Char.toLower⟩

/-- Longest digit prefix of a character list, with the remainder. -/
def takeDigits : List Char → List Char × List Char
  | [] => ([], [])
  | c :: cs =>
    if c.isDigit then
      let p := takeDigits cs
      (c :: p.1, p.2)
    else ([], c :: cs)

/-- Decimal value of a digit list. -/
def digitsVal (ds : List Char) : Nat := ds.foldl (fun a c => a * 10 + (c.toNat - 48)) 0

/-- Proleptic Gregorian leap-year test, as used by Python `datetime`. -/
def isLeap (y : Nat) : Bool := (y % 4 == 0 && y % 100 != 0) || y % 400 == 0

/-- Number of days of a month, as enforced by the Python `datetime` constructor. -/
def daysInMonth (y m : Nat) : Nat :=
  if m == 2 then (if isLeap y then 29 else 28)
  else if m == 4 || m == 6 || m == 9 || m == 11 then 30
  else 31

/-- Calendar date as carried by a parsed Python `datetime` (time-of-day fields
are validated during parsing but never used by this codebase afterwards). -/
structure PDate where
  year : Nat
  month : Nat
  day : Nat
  deriving DecidableEq

/-- Tokens of the `strptime` format strings used in this repository:
the directives %Y %y %m %d %H %M %S, literal characters, and literal
whitespace (which CPython compiles to a one-or-more whitespace match). -/
inductive FTok where
  | Y | y | m | d | H | M | S
  | lit (c : Char)
  | ws
  deriving DecidableEq

/-- Admissible digit-run length and value for each numeric directive,
mirroring the regular expressions CPython builds in `_strptime`:
%Y is exactly four digits, %y exactly two, %m and %d one or two digits
within 1..12 and 1..31, %H one or two digits up to 23, %M and %S up to 59. -/
def tokOk (t : FTok) (len v : Nat) : Bool :=
  match t with
  | .Y => len == 4
  | .y => len == 2
  | .m => 1 ≤ len && len ≤ 2 && 1 ≤ v && v ≤ 12
  | .d => 1 ≤ len && len ≤ 2 && 1 ≤ v && v ≤ 31
  | .H => 1 ≤ len && len ≤ 2 && v ≤ 23
  | .M => 1 ≤ len && len ≤ 2 && v ≤ 59
  | .S => 1 ≤ len && len ≤ 2 && v ≤ 59
  | _ => false

/-- Store a parsed directive value into the date record; %y applies the
CPython two-digit-year pivot (00-68 maps to 2000s, 69-99 to 1900s).
Time-of-day directives are range-checked by `tokOk` and then discarded. -/
def applyTok (pd : PDate) (t : FTok) (v : Nat) : PDate :=
  match t with
  | .Y => { pd with year := v }
  | .y => { pd with year := if v ≤ 68 then 2000 + v else 1900 + v }
  | .m => { pd with month := v }
  | .d => { pd with day := v }
  | _ => pd

/-- Match a token list against a character list, requiring the whole input to
be consumed (CPython raises on unconverted data).  In every format of this
repository each numeric directive is followed by a non-digit literal or the
end of the input, so the directive must consume the whole digit run. -/
def matchToks : List FTok → List Char → PDate → Option PDate
  | [], [], pd => some pd
  | [], _ :: _, _ => none
  | .lit c :: ts, x :: xs, pd => if x = c then matchToks ts xs pd else none
  | .lit _ :: _, [], _ => none
  | .ws :: ts, xs, pd =>
    (match xs with
     | x :: rest =>
       if x.isWhitespace then matchToks ts (rest.dropWhile Char.isWhitespace) pd
       else none
     | [] => none)
  | t :: ts, xs, pd =>
    let p := takeDigits xs
    if tokOk t p.1.length (digitsVal p.1) then
      matchToks ts p.2 (applyTok pd t (digitsVal p.1))
    else none

/-- Semantic validity of the parsed fields, as enforced by the Python
`datetime` constructor: year within MINYEAR..MAXYEAR and day within the month. -/
def dateValid (pd : PDate) : Bool :=
  1 ≤ pd.year && pd.year ≤ 9999 && 1 ≤ pd.month && pd.month ≤ 12 &&
  1 ≤ pd.day && pd.day ≤ daysInMonth pd.year pd.month

/-- Model of `datetime.strptime(s, fmt)` restricted to the directives used in
this repository: `none` models a raised `ValueError` (either no regex match or
an out-of-range date).  Missing fields keep the CPython defaults 1900-01-01. -/
def strptime (s : String) (fmt : List FTok) : Option PDate :=
  match matchToks fmt s.data { year := 1900, month := 1, day := 1 } with
  | some pd => if dateValid pd then some pd else none
  | none => none

/-- Format list entry "%Y-%m-%d". -/
def fmtYmd : List FTok := [.Y, .lit '-', .m, .lit '-', .d]

/-- Format list entry "%d/%m/%Y". -/
def fmtDmySlash : List FTok := [.d, .lit '/', .m, .lit '/', .Y]

/-- Format list entry "%m/%d/%Y". -/
def fmtMdySlash : List FTok := [.m, .lit '/', .d, .lit '/', .Y]

/-- Format list entry "%Y/%m/%d". -/
def fmtYmdSlash : List FTok := [.Y, .lit '/', .m, .lit '/', .d]

/-- Format list entry "%d-%m-%Y". -/
def fmtDmyDash : List FTok := [.d, .lit '-', .m, .lit '-', .Y]

/-- Format list entry "%m-%d-%Y". -/
def fmtMdyDash : List FTok := [.m, .lit '-', .d, .lit '-', .Y]

/-- Format list entry "%Y-%m-%d %H:%M:%S". -/
def fmtYmdHms : List FTok :=
  [.Y, .lit '-', .m, .lit '-', .d, .ws, .H, .lit ':', .M, .lit ':', .S]

/-- Format list entry "%m/%d/%y". -/
def fmtMdy2 : List FTok := [.m, .lit '/', .d, .lit '/', .y]

/-- The fixed ordered list of input patterns tried by
`DataCleaner.normalize_date` (data_validator.py lines 184-193). -/
def dateFormats : List (List FTok) :=
  [fmtYmd, fmtDmySlash, fmtMdySlash, fmtYmdSlash, fmtDmyDash, fmtMdyDash, fmtYmdHms, fmtMdy2]

/-- Two-digit zero padding, as in strftime %m and %d. -/
def pad2 (n : Nat) : String := if n < 10 then "0" ++ toString n else toString n

/-- Four-digit zero padding for the year rendered by strftime %Y. -/
def pad4 (n : Nat) : String :=
  if n < 10 then "000" ++ toString n
  else if n < 100 then "00" ++ toString n
  else if n < 1000 then "0" ++ toString n
  else toString n

/-- Model of `datetime.strftime("%Y-%m-%d")`: the canonical rendering. -/
def strftimeYmd (pd : PDate) : String :=
  pad4 pd.year ++ "-" ++ pad2 pd.month ++ "-" ++ pad2 pd.day

/-- First-match loop of `DataCleaner.normalize_date`: each format is tried in
order with `strptime`; a `ValueError` (modelled by `none`) moves on to the
next format. -/
def tryDateFormats : List (List FTok) → String → Option String
  | [], _ => none
  | f :: fs, s =>
    match strptime s f with
    | some pd => some (strftimeYmd pd)
    | none => tryDateFormats fs s

/-- Model of `DataCleaner.normalize_date` on a string argument with the default
output format "%Y-%m-%d"; `none` models the final raised
`ValueError(Could not parse date)`. -/
def normalize_date (s : String) : Option String := tryDateFormats dateFormats s

/-- Unsigned decimal parser backing the model of Python `float(str)`:
an integer part and an optional fractional part, at least one digit in total.
Exponent, infinity and nan spellings do not occur in this codebase and are
modelled as parse failures. -/
def parseUnsignedDec (cs : List Char) : Option ℚ :=
  let ip := takeDigits cs
  match ip.2 with
  | [] => if ip.1.isEmpty then none else some (digitsVal ip.1)
  | c :: rest2 =>
    if c = '.' then
      let fp := takeDigits rest2
      if fp.2.isEmpty && 0 < ip.1.length + fp.1.length then
        some ((digitsVal ip.1 : ℚ) + (digitsVal fp.1 : ℚ) / ((10 : ℚ) ^ fp.1.length))
      else none
    else none

/-- Model of Python `float(s)` for a string: surrounding whitespace is
stripped, then an optionally signed decimal is parsed. -/
def pyFloatOfString (s : String) : Option ℚ :=
  match (pyStrip s).data with
  | '+' :: cs => parseUnsignedDec cs
  | '-' :: cs => (parseUnsignedDec cs).map Neg.neg
  | cs => parseUnsignedDec cs

/-- Model of Python `float(value)` as used by `NumericRangeRule.validate`:
numbers convert to themselves, booleans to 0 or 1, strings through the
decimal parser; everything else raises (modelled by `none`). -/
def pyFloat : Json → Option ℚ
  | .num q => some q
  | .bool b => some (if b then 1 else 0)
  | .str s => pyFloatOfString s
  | _ => none

/-- Validation rules attached to schema fields in this repository.
`dateFormat` always carries the default format "%Y-%m-%d", the only one the
repository constructs; the numeric bounds are the integer literals of the
weather and covid schemas. -/
inductive VRule where
  | required
  | dateFormat
  | numericRange (minVal maxVal : Option Int)
  deriving DecidableEq

/-- Model of `RequiredRule.validate`: fails on `None` and on strings that are
empty after stripping whitespace; every other value passes. -/
def requiredValidate : Json → Bool
  | .null => false
  | .str s => !(pyStrip s).isEmpty
  | _ => true

/-- Model of `DateFormatRule.validate` with the default format: falsy values
pass, strings must parse under "%Y-%m-%d", and every other value fails. -/
def dateFormatValidate (v : Json) : Bool :=
  if pyFalsy v then true
  else
    match v with
    | .str s => (strptime s fmtYmd).isSome
    | _ => false

/-- Model of `NumericRangeRule.validate`: `None` passes, otherwise the value
must convert under `float` and respect the inclusive optional bounds. -/
def numericRangeValidate (minVal maxVal : Option Int) (v : Json) : Bool :=
  match v with
  | .null => true
  | _ =>
    match pyFloat v with
    | none => false
    | some q =>
      (match minVal with
       | some mn => decide ((mn : ℚ) ≤ q)
       | none => true) &&
      (match maxVal with
       | some mx => decide (q ≤ (mx : ℚ))
       | none => true)

/-- Dispatch of `ValidationRule.validate` over the rule kinds. -/
def ruleValidate : VRule → Json → Bool
  | .required, v => requiredValidate v
  | .dateFormat, v => dateFormatValidate v
  | .numericRange mn mx, v => numericRangeValidate mn mx v

/-- Rendering of `get_error_message` for each rule kind, following
data_validator.py (the numeric bounds are Python ints in this repository,
so they render without a decimal point). -/
def ruleErrorMessage : VRule → String → String
  | .required, f => "Field " ++ apos ++ f ++ apos ++ " is required but was empty or missing"
  | .dateFormat, f => "Field " ++ apos ++ f ++ apos ++ " must be a valid date in format %Y-%m-%d"
  | .numericRange (some mn) (some mx), f =>
    "Field " ++ apos ++ f ++ apos ++ " must be between " ++ toString mn ++ " and " ++ toString mx
  | .numericRange (some mn) none, f =>
    "Field " ++ apos ++ f ++ apos ++ " must be greater than or equal to " ++ toString mn
  | .numericRange none (some mx), f =>
    "Field " ++ apos ++ f ++ apos ++ " must be less than or equal to " ++ toString mx
  | .numericRange none none, f =>
    "Field " ++ apos ++ f ++ apos ++ " must be a valid number"

/-- Schema: ordered field-to-rules mapping, as stored by
`SchemaValidator.add_schema`. -/
def Schema := List (String × List VRule)

/-- Model of `SchemaValidator.validate`: iterate the schema fields in order,
look each field up in the record (missing keys read as `None`), and collect
the error message of every failing rule without short-circuiting. -/
def schemaValidate (schema : Schema) (data : List (String × Json)) : List String :=
  schema.flatMap (fun fr =>
    (fr.2.filter (fun r => !ruleValidate r (pyGet data fr.1))).map
      (fun r => ruleErrorMessage r fr.1))

/-- The weather schema registered by
`WeatherTransformer._initialize_validators` (weather_transformer.py 20-36). -/
def weatherSchema : Schema :=
  [("country_id", [.required]),
   ("date", [.required, .dateFormat]),
   ("tavg", [.numericRange (some (-100)) (some 100)]),
   ("tmin", [.numericRange (some (-100)) (some 100)]),
   ("tmax", [.numericRange (some (-100)) (some 100)]),
   ("prcp", [.numericRange (some 0) none]),
   ("snow", [.numericRange (some 0) none]),
   ("wdir", [.numericRange (some 0) (some 360)]),
   ("wspd", [.numericRange (some 0) none]),
   ("wpgt", [.numericRange (some 0) none]),
   ("pres", [.numericRange (some 0) none]),
   ("tsun", [.numericRange (some 0) none])]

/-- Model of `validator.validate("weather", record)` for the validator that
the weather transformer always passes to the staged loader. -/
def validateWeather (data : List (String × Json)) : List String :=
  schemaValidate weatherSchema data

/-- Row of the `country` dimension table (id, two-letter code, lowercase name). -/
structure Country where
  id : Nat
  code : String
  name : String
  deriving DecidableEq

/-- Value stored in the VARCHAR `country_id` column of `transform_log`: the
callers pass either the resolved numeric id, the raw country-name string, or
Python `None` (SQL NULL). -/
inductive CVal where
  | num (n : Nat)
  | str (s : String)
  | null
  deriving DecidableEq

/-- Row of the `transform_log` table, as inserted by
`DBManager.insert_transform_log` (batch_date modelled as its rendered string). -/
structure TransformLogEntry where
  transform_id : String
  batch_date : String
  country_id : CVal
  directory_name : String
  file_name : String
  row_count : Nat
  status : String
  deriving DecidableEq

/-- Row of the permanent `weather_data_import` fact table.  The resolved
country id is kept as a number (the VARCHAR column stores its rendering);
the metric columns keep the inserted JSON-derived values. -/
structure WeatherRow where
  weather_id : String
  country_id : Nat
  date : Json
  tavg : Json
  tmin : Json
  tmax : Json
  prcp : Json
  snow : Json
  wdir : Json
  wspd : Json
  wpgt : Json
  pres : Json
  tsun : Json

/-- Row of the ephemeral `temp_weather_data` staging table (all-VARCHAR ids,
so the raw country name string is stored). -/
structure TempRow where
  weather_id : String
  country_id : Json
  date : Json
  tavg : Json
  tmin : Json
  tmax : Json
  prcp : Json
  snow : Json
  wdir : Json
  wspd : Json
  wpgt : Json
  pres : Json
  tsun : Json

/-- Database state visible to the staged loader: the country dimension, the
permanent fact table, the staging table (rows and existence flag), the
transform log, and a counter supplying fresh uuid4 strings (uuid values are
modelled as distinct counter-derived strings; no claim depends on their text). -/
structure DBState where
  countries : List Country
  weatherData : List WeatherRow
  tempWeather : List TempRow
  tempWeatherTableExists : Bool
  transformLog : List TransformLogEntry
  uuidCounter : Nat

/-- Model of `str(uuid.uuid4())`: a fresh string plus the successor state. -/
def freshUuid (st : DBState) : String × DBState :=
  ("uuid-" ++ toString st.uuidCounter, { st with uuidCounter := st.uuidCounter + 1 })

/-- Model of `DBManager.get_country_id`: lowercase the name, look it up in the
country table, return the id of the first match or `None`
(db_manager.py 100-114). -/
def get_country_id (countries : List Country) (name : String) : Option Nat :=
  (countries.find? (fun c => c.name == pyLower name)).map (fun c => c.id)

/-- Model of the Python expression `country_id or country` used by the
`log_transform_error` helpers: a truthy (nonzero) id wins, otherwise the
country-name string is logged. -/
def cvalOr (o : Option Nat) (country : String) : CVal :=
  match o with
  | some n => if n == 0 then .str country else .num n
  | none => .str country

/-- Conversion of an optional id passed directly to `insert_transform_log`
(`None` becomes SQL NULL). -/
def cvalOpt (o : Option Nat) : CVal :=
  match o with
  | some n => .num n
  | none => .null

/-- Model of `DBManager.insert_transform_log`: a pure append to the log table. -/
def insert_transform_log (st : DBState) (e : TransformLogEntry) : DBState :=
  { st with transformLog := st.transformLog ++ [e] }

/-- Constructor shorthand for a transform-log row. -/
def mkLogEntry (tid bd : String) (cid : CVal) (dir fn : String) (rc : Nat)
    (status : String) : TransformLogEntry :=
  ⟨tid, bd, cid, dir, fn, rc, status⟩

/-- DuckDB cast applied to the `date` parameter when inserting into the DATE
column of `weather_data_import`: NULL passes, a string passes exactly when it
is an ISO year-month-day date (the same set DateFormatRule accepts), and any
other payload fails the cast, raising inside `insert_weather_data`. -/
def dateCastOk : Json → Bool
  | .null => true
  | .str s => (strptime s fmtYmd).isSome
  | _ => false

/-- Model of `CREATE TEMP TABLE IF NOT EXISTS temp_weather_data ...`
(sql_templates.CREATE_TEMP_WEATHER_TABLE): existing rows are kept. -/
def createTempWeatherTable (st : DBState) : DBState :=
  { st with tempWeatherTableExists := true }

/-- Model of `DBManager.insert_temp_weather_data`: raises (Except.error) when
the staging table does not exist, otherwise appends the row. -/
def insert_temp_weather_data (st : DBState) (row : TempRow) : Except String DBState :=
  if st.tempWeatherTableExists then
    .ok { st with tempWeather := st.tempWeather ++ [row] }
  else
    .error "Catalog Error: Table with name temp_weather_data does not exist"

/-- Model of `DBManager.insert_weather_data`: the permanent table always
exists (created during initialization), but the DATE-column cast can fail. -/
def insert_weather_data (st : DBState) (row : WeatherRow) : Except String DBState :=
  if dateCastOk row.date then
    .ok { st with weatherData := st.weatherData ++ [row] }
  else
    .error "Conversion Error: date field could not be cast to DATE"

/-- The `clean_record` dictionary built by both staged-loader functions:
`country_id` is the country-name string, `date` the supplied date value, and
the metric fields are read with `.get` from the parsed record. -/
def cleanRecordD (country : String) (dateVal : Json) (fields : List (String × Json)) :
    List (String × Json) :=
  [("country_id", .str country),
   ("date", dateVal),
   ("tavg", pyGet fields "tavg"),
   ("tmin", pyGet fields "tmin"),
   ("tmax", pyGet fields "tmax"),
   ("prcp", pyGet fields "prcp"),
   ("snow", pyGet fields "snow"),
   ("wdir", pyGet fields "wdir"),
   ("wspd", pyGet fields "wspd"),
   ("wpgt", pyGet fields "wpgt"),
   ("pres", pyGet fields "pres"),
   ("tsun", pyGet fields "tsun")]

/-- Staging-table row built from a clean record. -/
def mkTempRow (wid : String) (rec0 : List (String × Json)) : TempRow :=
  ⟨wid, pyGet rec0 "country_id", pyGet rec0 "date", pyGet rec0 "tavg", pyGet rec0 "tmin",
   pyGet rec0 "tmax", pyGet rec0 "prcp", pyGet rec0 "snow", pyGet rec0 "wdir",
   pyGet rec0 "wspd", pyGet rec0 "wpgt", pyGet rec0 "pres", pyGet rec0 "tsun"⟩

/-- Fact-table row built from a clean record and the resolved country id
(the `country_id` key of the record is replaced by the id). -/
def mkWeatherRow (wid : String) (cid : Nat) (rec0 : List (String × Json)) : WeatherRow :=
  ⟨wid, cid, pyGet rec0 "date", pyGet rec0 "tavg", pyGet rec0 "tmin",
   pyGet rec0 "tmax", pyGet rec0 "prcp", pyGet rec0 "snow", pyGet rec0 "wdir",
   pyGet rec0 "wspd", pyGet rec0 "wpgt", pyGet rec0 "pres", pyGet rec0 "tsun"⟩

/-- Python iteration (`for record in data`) over a JSON-derived value: lists
yield their elements, dicts their keys, strings their characters; numbers,
booleans and `None` raise TypeError (modelled by `none`). -/
def pyIter : Json → Option (List Json)
  | .arr xs => some xs
  | .obj fs => some (fs.map (fun kv => Json.str kv.1))
  | .str s => some (s.data.map (fun c => Json.str c.toString))
  | _ => none

/-- Per-record body of `process_weather_complete_file` (weather_transform.py
174-221).  `Except.error` carries the state and message of an uncaught
exception (`record.get` on a non-dict record); `Except.ok` returns the new
state and whether the record was committed. -/
def processRecord (country dirName fileName batchDate : String) (st : DBState)
    (r : Json) : Except (DBState × String) (DBState × Bool) :=
  match r with
  | .obj fields =>
    let rec0 := cleanRecordD country (pyGet fields "date") fields
    let errs := validateWeather rec0
    if errs.isEmpty then
      let p := freshUuid st
      match insert_temp_weather_data p.2 (mkTempRow p.1 rec0) with
      | .error m =>
        let p2 := freshUuid p.2
        .ok (insert_transform_log p2.2
          (mkLogEntry p2.1 batchDate (cvalOr (get_country_id st.countries country) country)
            dirName fileName 0 ("DB_ERROR_TMP: " ++ m)), false)
      | .ok st2 =>
        match get_country_id st2.countries country with
        | none =>
          let p2 := freshUuid st2
          .ok (insert_transform_log p2.2
            (mkLogEntry p2.1 batchDate (cvalOr none country) dirName fileName 0
              "COUNTRY_NOT_FOUND"), false)
        | some cid =>
          if cid == 0 then
            let p2 := freshUuid st2
            .ok (insert_transform_log p2.2
              (mkLogEntry p2.1 batchDate (cvalOr none country) dirName fileName 0
                "COUNTRY_NOT_FOUND"), false)
          else
            match insert_weather_data st2 (mkWeatherRow p.1 cid rec0) with
            | .error m =>
              let p2 := freshUuid st2
              .ok (insert_transform_log p2.2
                (mkLogEntry p2.1 batchDate (cvalOr (some cid) country) dirName fileName 0
                  ("DB_INSERT_ERROR: " ++ m)), false)
            | .ok st3 =>
              let p2 := freshUuid st3
              .ok (insert_transform_log p2.2
                (mkLogEntry p2.1 batchDate (.num cid) dirName fileName 1 "SUCCESS"), true)
    else
      let p := freshUuid st
      .ok (insert_transform_log p.2
        (mkLogEntry p.1 batchDate (cvalOr (get_country_id st.countries country) country)
          dirName fileName 0
          ("VALIDATION_ERROR: " ++ String.intercalate "; " errs)), false)
  | _ =>
    .error (st, apos ++ pyTypeName r ++ apos ++ " object has no attribute " ++ apos ++ "get" ++ apos)

/-- The `for record in data` loop of `process_weather_complete_file`,
threading the state and the committed-record count. -/
def pwcfLoop (country dirName fileName batchDate : String) :
    DBState → Nat → List Json → Except (DBState × String) (DBState × Nat)
  | st, total, [] => .ok (st, total)
  | st, total, r :: rs =>
    match processRecord country dirName fileName batchDate st r with
    | .error e => .error e
    | .ok p => pwcfLoop country dirName fileName batchDate p.1
        (if p.2 then total + 1 else total) rs

/-- Content of a file handed to the loaders: either malformed JSON (the
decoder message) or a parsed value. -/
inductive FileContent where
  | badJson (msg : String)
  | json (v : Json)

/-- Split of a character list at every occurrence of a separator character. -/
def splitChars (sep : Char) : List Char → List (List Char)
  | [] => [[]]
  | c :: cs =>
    let r := splitChars sep cs
    if c = sep then [] :: r
    else (c :: r.headD []) :: r.tail

/-- Components of a slash-separated path. -/
def pathSplit (p : String) : List String :=
  (splitChars '/' p.data).map (fun cs => ⟨cs⟩)

/-- Model of `os.path.basename` for slash-separated paths. -/
def pathBasename (p : String) : String := (pathSplit p).getLastD ""

/-- Model of `os.path.dirname` for slash-separated paths. -/
def pathDirname (p : String) : String :=
  String.intercalate "/" (pathSplit p).dropLast

/-- Model of `process_weather_complete_file` (weather_transform.py 151-244).
The outer try/except converts any uncaught per-record exception into a single
UNEXPECTED_ERROR transform-log entry; otherwise a rollup entry closes the
unit of work.  The function never creates or drops the staging table. -/
def process_weather_complete_file (country filePath batchDate : String)
    (content : FileContent) (st0 : DBState) : DBState × Nat :=
  let dirName := pathDirname filePath
  let fileName := pathBasename filePath
  let p := freshUuid st0
  let tid := p.1
  let st := p.2
  match content with
  | .badJson m =>
    (insert_transform_log st
      (mkLogEntry tid batchDate (cvalOr (get_country_id st.countries country) country)
        dirName fileName 0 ("INVALID_JSON: " ++ m)), 0)
  | .json v =>
    match pyIter v with
    | none =>
      (insert_transform_log st
        (mkLogEntry tid batchDate (cvalOpt (get_country_id st.countries country))
          dirName fileName 0
          ("UNEXPECTED_ERROR: " ++ apos ++ pyTypeName v ++ apos ++ " object is not iterable")), 0)
    | some records =>
      match pwcfLoop country dirName fileName batchDate st 0 records with
      | .error e =>
        (insert_transform_log e.1
          (mkLogEntry tid batchDate (cvalOpt (get_country_id e.1.countries country))
            dirName fileName 0 ("UNEXPECTED_ERROR: " ++ e.2)), 0)
      | .ok p2 =>
        (insert_transform_log p2.1
          (mkLogEntry tid batchDate (cvalOpt (get_country_id p2.1.countries country))
            dirName fileName p2.2
            (if 0 < p2.2 then "SUCCESS" else "NO_RECORDS_PROCESSED")), p2.2)

/-- Model of Python `int(s)` on the filename stem: strip whitespace, optional
sign, decimal digits (underscore grouping does not occur in this codebase and
is modelled as failure). -/
def pyIntOfString (s : String) : Option Int :=
  match (pyStrip s).data with
  | [] => none
  | '+' :: cs =>
    if !cs.isEmpty && cs.all Char.isDigit then some (digitsVal cs) else none
  | '-' :: cs =>
    if !cs.isEmpty && cs.all Char.isDigit then some (-(digitsVal cs : Int)) else none
  | cs =>
    if cs.all Char.isDigit then some (digitsVal cs) else none

/-- Model of `os.path.splitext(name)[0]`: the name without its final
dot-extension; a bare leading dot is not an extension. -/
def fileStem (name : String) : String :=
  match name.splitOn "." with
  | [] => name
  | [_] => name
  | parts =>
    let stem := String.intercalate "." parts.dropLast
    if stem.isEmpty then name else stem

/-- Model of the f-string `{day:02d}`: zero-pad single-digit nonnegative
values to width two. -/
def fmt02 (d : Int) : String :=
  if 0 ≤ d && d ≤ 9 then "0" ++ toString d else toString d

/-- Model of `DataCleaner.normalize_date(value)` applied to the raw value of
the `date` key (weather_transform.py 58-64): `None` returns `None`, a string
goes through the format list (a miss raises ValueError), and any other value
raises TypeError inside strptime.  `Except.error` carries the message caught
by the INVALID_DATE_FORMAT handler. -/
def normalizeDateValue : Json → Except String Json
  | .null => .ok .null
  | .str s =>
    match normalize_date s with
    | some r => .ok (.str r)
    | none => .error ("Could not parse date: " ++ s)
  | v => .error ("strptime() argument 1 must be str, not " ++ pyTypeName v)

/-- Model of the Python test `(String.quote "date") in data` for a parsed JSON
value: key test on dicts, membership on lists, substring test on strings;
other values raise TypeError (modelled by `none`). -/
def pyContainsKeyDate : Json → Option Bool
  | .obj fs => some (fs.any (fun kv => kv.1 == "date"))
  | .arr xs => some (xs.any (fun x => x == Json.str "date"))
  | .str s => some (2 ≤ (s.splitOn "date").length)
  | _ => none

/-- UNEXPECTED_ERROR per-file handler of `transform_weather_batch`
(lines 130-132): a fresh uuid, country_id `None or country`, row_count 0. -/
def twbUnexpected (country batchDate folderPath fileName : String) (st : DBState)
    (msg : String) : DBState :=
  let p := freshUuid st
  insert_transform_log p.2
    (mkLogEntry p.1 batchDate (cvalOr none country) folderPath fileName 0
      ("UNEXPECTED_ERROR: " ++ msg))

/-- Outcome of the date-determination section of `transform_weather_batch`
(lines 56-73): a resolved date value, a tagged log status handled in place,
or an exception escaping to the per-file handler. -/
inductive TwbDate where
  | okDate (v : Json)
  | logged (status : String)
  | unexpected (msg : String)

/-- Date determination for one file: use the `date` key through
`normalize_date` when present, otherwise parse the filename stem as the day
of `year_month`.  Subscripting a non-dict raises to the per-file handler. -/
def twbDateOf (data : Json) (hasDate : Bool) (fileName yearMonth : String) : TwbDate :=
  if hasDate then
    match data with
    | .obj fs =>
      match normalizeDateValue (pyGet fs "date") with
      | .ok v => .okDate v
      | .error m => .logged ("INVALID_DATE_FORMAT: " ++ m)
    | .arr _ => .unexpected "list indices must be integers or slices, not str"
    | .str _ => .unexpected "string indices must be integers"
    | _ => .unexpected "value is not subscriptable"
  else
    match pyIntOfString (fileStem fileName) with
    | none =>
      .logged ("INVALID_DATE_FROM_FILENAME: invalid literal for int() with base 10: " ++
        apos ++ fileStem fileName ++ apos)
    | some day =>
      match strptime (yearMonth ++ "-" ++ fmt02 day) fmtYmd with
      | none =>
        .logged ("INVALID_DATE_FROM_FILENAME: time data " ++ apos ++
          (yearMonth ++ "-" ++ fmt02 day) ++ apos ++ " does not match format " ++
          apos ++ "%Y-%m-%d" ++ apos)
      | some pd => .okDate (.str (strftimeYmd pd))

/-- Staging stages of one file of `transform_weather_batch` (lines 90-128):
validate, insert into the staging table, resolve the country, insert into the
fact table, log the outcome.  Every entry reuses the transform id drawn when
the file was opened.  Returns the state and the new running total. -/
def twbStage (country batchDate folderPath fileName tid : String) (st : DBState)
    (total : Nat) (rec0 : List (String × Json)) : DBState × Nat :=
  let errs := validateWeather rec0
  if errs.isEmpty then
    let p := freshUuid st
    match insert_temp_weather_data p.2 (mkTempRow p.1 rec0) with
    | .error m =>
      (insert_transform_log p.2
        (mkLogEntry tid batchDate (cvalOr (get_country_id st.countries country) country)
          folderPath fileName 0 ("DB_ERROR_TMP: " ++ m)), total)
    | .ok st2 =>
      match get_country_id st2.countries country with
      | none =>
        (insert_transform_log st2
          (mkLogEntry tid batchDate (cvalOr none country) folderPath fileName 0
            "COUNTRY_NOT_FOUND"), total)
      | some cid =>
        if cid == 0 then
          (insert_transform_log st2
            (mkLogEntry tid batchDate (cvalOr none country) folderPath fileName 0
              "COUNTRY_NOT_FOUND"), total)
        else
          match insert_weather_data st2 (mkWeatherRow p.1 cid rec0) with
          | .error m =>
            (insert_transform_log st2
              (mkLogEntry tid batchDate (cvalOr (some cid) country) folderPath fileName 0
                ("DB_INSERT_ERROR: " ++ m)), total)
          | .ok st3 =>
            (insert_transform_log st3
              (mkLogEntry tid batchDate (.num cid) folderPath fileName 1 "SUCCESS"),
             total + 1)
  else
    (insert_transform_log st
      (mkLogEntry tid batchDate (cvalOr (get_country_id st.countries country) country)
        folderPath fileName 0
        ("VALIDATION_ERROR: " ++ String.intercalate "; " errs)), total)

/-- Processing of one file inside the batch loop of `transform_weather_batch`
(lines 42-132): JSON decoding, date determination, then the staging stages;
the surrounding try/except funnels uncaught exceptions into an
UNEXPECTED_ERROR entry and continues with the next file. -/
def twbProcessFile (country yearMonth batchDate folderPath : String)
    (acc : DBState × Nat) (file : String × FileContent) : DBState × Nat :=
  let fileName := file.1
  let p := freshUuid acc.1
  let tid := p.1
  let st := p.2
  match file.2 with
  | .badJson m =>
    (insert_transform_log st
      (mkLogEntry tid batchDate (cvalOr (get_country_id st.countries country) country)
        folderPath fileName 0 ("INVALID_JSON: " ++ m)), acc.2)
  | .json data =>
    match pyContainsKeyDate data with
    | none =>
      (twbUnexpected country batchDate folderPath fileName st
        ("argument of type " ++ apos ++ pyTypeName data ++ apos ++ " is not iterable"),
       acc.2)
    | some hasDate =>
      match twbDateOf data hasDate fileName yearMonth with
      | .unexpected m =>
        (twbUnexpected country batchDate folderPath fileName st m, acc.2)
      | .logged status =>
        (insert_transform_log st
          (mkLogEntry tid batchDate (cvalOr (get_country_id st.countries country) country)
            folderPath fileName 0 status), acc.2)
      | .okDate dv =>
        match data with
        | .obj fs =>
          twbStage country batchDate folderPath fileName tid st acc.2
            (cleanRecordD country dv fs)
        | _ =>
          (twbUnexpected country batchDate folderPath fileName st
            (apos ++ pyTypeName data ++ apos ++ " object has no attribute " ++
              apos ++ "get" ++ apos), acc.2)

/-- Input directory of a batch run: either missing on disk, or present with
the (sorted) list of its *.json files and their contents. -/
inductive Folder where
  | missing
  | present (files : List (String × FileContent))

/-- Model of `transform_weather_batch` (weather_transform.py 10-149).  The
staging table is created unconditionally at entry.  A missing folder or an
empty folder logs one entry and returns 0 before reaching the drop statement.
When files are processed, the rollup entry is written and the function then
evaluates `sql_templates.DROP_TEMP_WEATHER_TABLE` at line 147 — an attribute
that sql_templates.py does not define — so an AttributeError is raised and the
staging table is never dropped; `Except.error` carries the state at the raise. -/
def transform_weather_batch (country yearMonth batchDate : String) (folder : Folder)
    (st0 : DBState) : Except DBState (DBState × Nat) :=
  let folderPath := "../extract/data/weather/" ++ country ++ "/" ++ yearMonth
  let st := createTempWeatherTable st0
  match folder with
  | .missing =>
    let p := freshUuid st
    .ok (insert_transform_log p.2
      (mkLogEntry p.1 batchDate (cvalOr (get_country_id st.countries country) country)
        folderPath "DIRECTORY" 0 "NO_FILES_FOUND"), 0)
  | .present [] =>
    let p := freshUuid st
    .ok (insert_transform_log p.2
      (mkLogEntry p.1 batchDate (cvalOr (get_country_id st.countries country) country)
        folderPath "DIRECTORY" 0 "EMPTY_DIRECTORY"), 0)
  | .present (f :: fs) =>
    let r := (f :: fs).foldl (twbProcessFile country yearMonth batchDate folderPath) (st, 0)
    let p := freshUuid r.1
    .error (insert_transform_log p.2
      (mkLogEntry p.1 batchDate (cvalOpt (get_country_id p.2.countries country))
        folderPath "BATCH_PROCESS" r.2
        (if 0 < r.2 then "SUCCESS" else "NO_RECORDS_PROCESSED")))

/-- HTTP response as far as `make_request` inspects it: status code and body
text. -/
structure HttpResp where
  status : Nat
  text : String
  deriving DecidableEq

/-- Outcome of one `requests.get` attempt: a completed response or a raised
`requests.RequestException` with its message. -/
inductive Attempt where
  | resp (r : HttpResp)
  | exn (msg : String)

/-- Row of the `api_import_log` table as inserted by `DBManager.log_api_call`
(wall-clock timestamps are outside the model; transport failures are recorded
with the synthetic status 0). -/
structure ApiLogEntry where
  id : Int
  country_id : Nat
  api_id : String
  code_response : Nat
  error_message : Option String
  deriving DecidableEq

/-- Database state touched by `DBManager.log_api_call`: the country table,
the `api_import_log` rows and the in-process id counter. -/
structure ApiDBState where
  countries : List Country
  apiLog : List ApiLogEntry
  apiLogIdCounter : Int
  deriving DecidableEq

/-- Model of `DBManager.log_api_call` (db_manager.py 116-141): the country
name is resolved first and only under the `if country_id:` truthiness gate is
a row inserted, carrying the next counter id; an unresolved (or id-0) country
inserts nothing and the method returns False. -/
def log_api_call (db : ApiDBState) (country api_id : String) (code_response : Nat)
    (error_message : Option String) : ApiDBState × Bool :=
  match get_country_id db.countries country with
  | some cid =>
    if cid == 0 then (db, false)
    else
      ({ db with
          apiLog := db.apiLog ++
            [⟨db.apiLogIdCounter, cid, api_id, code_response, error_message⟩],
          apiLogIdCounter := db.apiLogIdCounter + 1 }, true)
  | none => (db, false)

/-- The while-loop of `ApiClient.make_request` (api_client.py 21-69), fuelled
by `max_retries + 1 - retry_count`, which bounds the remaining iterations of
the guard `retry_count <= max_retries and not success`.  The oracle gives the
outcome of the attempt issued at each retry count; every attempt invokes
`log_api_call` once (a 200 response logs no error message, any other status
logs the body text, a transport exception logs the synthetic status 0). -/
def mrLoop (oracle : Nat → Attempt) (country api_id : String) :
    Nat → Nat → Option HttpResp → ApiDBState → Option HttpResp × Bool × ApiDBState
  | _, 0, resp, db => (resp, false, db)
  | rc, fuel + 1, resp, db =>
    match oracle rc with
    | .resp r =>
      let db2 := (log_api_call db country api_id r.status
        (if r.status == 200 then none else some r.text)).1
      if r.status == 200 then (some r, true, db2)
      else mrLoop oracle country api_id (rc + 1) fuel (some r) db2
    | .exn m =>
      mrLoop oracle country api_id (rc + 1) fuel resp
        ((log_api_call db country api_id 0 (some m)).1)

/-- Model of `ApiClient.make_request` with an explicit `max_retries`: returns
the final `(response, success)` pair together with the database state holding
the api_import_log rows written along the way.  A success is exactly a
status-200 response. -/
def make_request (country api_id : String) (maxRetries : Nat) (oracle : Nat → Attempt)
    (db : ApiDBState) : Option HttpResp × Bool × ApiDBState :=
  mrLoop oracle country api_id 0 (maxRetries + 1) none db

/-- Startup state relevant to `DBManager._initialize_tables`: the country
table, the id columns of the two integer-keyed log tables, and the two
in-process id counters. -/
structure InitState where
  countryRows : List Country
  apiLogIds : List Int
  importLogIds : List Int
  apiLogIdCounter : Int
  importLogIdCounter : Int
  deriving DecidableEq

/-- Model of SQL `COALESCE(MAX(id), 0)` over an id column. -/
def sqlMaxCoalesce (ids : List Int) : Int :=
  match ids with
  | [] => 0
  | x :: xs => xs.foldl max x

/-- Config.COUNTRY_CODES in its dict enumeration order (config.py 29-33). -/
def countryCodes : List (String × String) :=
  [("greece", "GR"), ("thailand", "TH"), ("norway", "NO")]

/-- One `INSERT INTO country ... ON CONFLICT (id) DO NOTHING`. -/
def insertCountryIfAbsent (rows : List Country) (c : Country) : List Country :=
  if rows.any (fun r => r.id == c.id) then rows else rows ++ [c]

/-- Model of `DBManager._initialize_tables` (db_manager.py 55-93): the CREATE
IF NOT EXISTS statements leave the modelled columns unchanged, the countries
are upserted with ids from `enumerate(..., 1)`, and both id counters are
seeded from `COALESCE(MAX(id), 0) + 1` over the corresponding table. -/
def init_tables (s : InitState) : InitState :=
  let seeded := countryCodes.enum.foldl
    (fun acc p => insertCountryIfAbsent acc ⟨p.1 + 1, p.2.2, p.2.1⟩) s.countryRows
  { s with
    countryRows := seeded,
    apiLogIdCounter := sqlMaxCoalesce s.apiLogIds + 1,
    importLogIdCounter := sqlMaxCoalesce s.importLogIds + 1 }

/-- Lookup of the rule list a schema attaches to a field (the Python schema
dict access `schema_rules[field_name]`). -/
def schemaRules (schema : Schema) (field : String) : List VRule :=
  match schema.find? (fun fr => fr.1 == field) with
  | some fr => fr.2
  | none => []

/-- Helper: the initial accumulator bounds a fold of `max` from below. -/
theorem foldl_max_le_init : ∀ (xs : List Int) (a : Int), a ≤ xs.foldl max a
  | [], a => le_refl a
  | y :: ys, a => le_trans (le_max_left a y) (foldl_max_le_init ys (max a y))

/-- Helper: every member bounds a fold of `max` from below. -/
theorem foldl_max_le_mem : ∀ (xs : List Int) (a i : Int), i ∈ xs → i ≤ xs.foldl max a
  | y :: ys, a, i, h => by
    rcases List.mem_cons.mp h with h1 | h2
    · subst h1
      exact le_trans (le_max_right a i) (foldl_max_le_init ys (max a i))
    · exact foldl_max_le_mem ys (max a y) i h2

/-- Helper: members never exceed the COALESCE(MAX(id),0) value. -/
theorem mem_le_sqlMaxCoalesce (ids : List Int) (i : Int) (h : i ∈ ids) :
    i ≤ sqlMaxCoalesce ids := by
  cases ids with
  | nil => cases h
  | cons x xs =>
    rcases List.mem_cons.mp h with h1 | h2
    · subst h1
      exact foldl_max_le_init xs i
    · exact foldl_max_le_mem xs x i h2

/-- C8: seeding the api-log and import-log id counters is idempotent — both
runs of `init_tables` against the same table state compute the same next id,
namely COALESCE(MAX(id),0) + 1 (1 for an empty table), and that id differs
from every id already present in the table. -/
theorem claim_C8_counter_seeding_idempotent (s : InitState) :
    (init_tables s).apiLogIdCounter = sqlMaxCoalesce s.apiLogIds + 1 ∧
    (init_tables (init_tables s)).apiLogIdCounter = (init_tables s).apiLogIdCounter ∧
    (s.apiLogIds = [] → (init_tables s).apiLogIdCounter = 1) ∧
    (∀ i ∈ s.apiLogIds, (init_tables s).apiLogIdCounter ≠ i) ∧
    (init_tables s).importLogIdCounter = sqlMaxCoalesce s.importLogIds + 1 ∧
    (init_tables (init_tables s)).importLogIdCounter = (init_tables s).importLogIdCounter ∧
    (s.importLogIds = [] → (init_tables s).importLogIdCounter = 1) ∧
    (∀ i ∈ s.importLogIds, (init_tables s).importLogIdCounter ≠ i) := by
  refine ⟨rfl, rfl, ?_, ?_, rfl, rfl, ?_, ?_⟩
  · intro h
    simp [init_tables, h, sqlMaxCoalesce]
  · intro i hi
    have := mem_le_sqlMaxCoalesce s.apiLogIds i hi
    simp only [init_tables]
    omega
  · intro h
    simp [init_tables, h, sqlMaxCoalesce]
  · intro i hi
    have := mem_le_sqlMaxCoalesce s.importLogIds i hi
    simp only [init_tables]
    omega

/-- Witness for C8 at a concrete pre-populated state: ids 3, 7, 2 in the api
log and an empty import log give next ids 8 and 1, stable across a second
seeding and distinct from the existing ids. -/
theorem claim_C8_witness :
    (init_tables ⟨[], [3, 7, 2], [], 0, 0⟩).apiLogIdCounter = 8 ∧
    (init_tables (init_tables ⟨[], [3, 7, 2], [], 0, 0⟩)).apiLogIdCounter = 8 ∧
    (init_tables ⟨[], [3, 7, 2], [], 0, 0⟩).importLogIdCounter = 1 ∧
    ((init_tables ⟨[], [3, 7, 2], [], 0, 0⟩).apiLogIdCounter ≠ 3 ∧
      (init_tables ⟨[], [3, 7, 2], [], 0, 0⟩).apiLogIdCounter ≠ 7 ∧
      (init_tables ⟨[], [3, 7, 2], [], 0, 0⟩).apiLogIdCounter ≠ 2) := by
  have h := claim_C8_counter_seeding_idempotent ⟨[], [3, 7, 2], [], 0, 0⟩
  refine ⟨?_, ?_, ?_, ?_, ?_, ?_⟩
  · exact h.1.trans (by decide)
  · exact h.2.1.trans (h.1.trans (by decide))
  · exact h.2.2.2.2.2.2.1 rfl
  · exact h.2.2.2.1 3 (by decide)
  · exact h.2.2.2.1 7 (by decide)
  · exact h.2.2.2.1 2 (by decide)

/-- C3 counterexample to the claim as stated: a `make_request` call with
max_retries = 2 against a constant-503 endpoint, for a country the country
table cannot resolve, issues its 3 attempts but writes 0 api_import_log rows
instead of 3 — `DBManager.log_api_call` inserts nothing when `get_country_id`
returns no id. -/
theorem claim_C3_counterexample :
    ((make_request "atlantis" "meteostat" 2 (fun _ => .resp ⟨503, "Service Unavailable"⟩)
        ⟨[⟨1, "GR", "greece"⟩], [], 1⟩).2.2.apiLog.length = 0 ∧
      (make_request "atlantis" "meteostat" 2 (fun _ => .resp ⟨503, "Service Unavailable"⟩)
        ⟨[⟨1, "GR", "greece"⟩], [], 1⟩).2.1 = false) ∧
    ¬ (make_request "atlantis" "meteostat" 2 (fun _ => .resp ⟨503, "Service Unavailable"⟩)
        ⟨[⟨1, "GR", "greece"⟩], [], 1⟩).2.2.apiLog.length = 3 :=
  ⟨⟨rfl, rfl⟩, by decide⟩

/-- C3 (amended): a `make_request` call with max_retries = 2 against an
endpoint whose every GET completes with HTTP 503, for a country that the
country table resolves to a truthy id, issues exactly 3 attempts, writes
exactly one api_import_log row per attempt (3 rows with status 503 and
consecutive counter ids) and returns a False success flag; for a country that
does not resolve, the 3 attempts are still issued and the flag is still
False, but no row is written. -/
theorem claim_C3_make_request_503_three_attempts
    (country api_id : String) (oracle : Nat → Attempt) (ts : Nat → String)
    (h : ∀ i, oracle i = .resp ⟨503, ts i⟩) :
    (∀ (db : ApiDBState) (cid : Nat),
      get_country_id db.countries country = some cid → (cid == 0) = false →
      make_request country api_id 2 oracle db =
        (some ⟨503, ts 2⟩, false,
          { db with
            apiLog := db.apiLog ++
              [⟨db.apiLogIdCounter, cid, api_id, 503, some (ts 0)⟩,
               ⟨db.apiLogIdCounter + 1, cid, api_id, 503, some (ts 1)⟩,
               ⟨db.apiLogIdCounter + 2, cid, api_id, 503, some (ts 2)⟩],
            apiLogIdCounter := db.apiLogIdCounter + 3 })) ∧
    (∀ db : ApiDBState,
      get_country_id db.countries country = none →
      make_request country api_id 2 oracle db = (some ⟨503, ts 2⟩, false, db)) := by
  constructor
  · intro db cid hid hcid
    simp [make_request, mrLoop, h 0, h 1, h 2, log_api_call, hid, hcid]
    omega
  · intro db hnone
    simp [make_request, mrLoop, h 0, h 1, h 2, log_api_call, hnone]

/-- Witness for C3 at a constant 503 endpoint: the resolving country writes
the 3 rows, the unresolvable country writes none. -/
theorem claim_C3_witness :
    make_request "greece" "meteostat" 2 (fun _ => .resp ⟨503, "Service Unavailable"⟩)
        ⟨[⟨1, "GR", "greece"⟩], [], 1⟩ =
      (some ⟨503, "Service Unavailable"⟩, false,
        { countries := [⟨1, "GR", "greece"⟩],
          apiLog := [] ++
            [⟨1, 1, "meteostat", 503, some "Service Unavailable"⟩,
             ⟨1 + 1, 1, "meteostat", 503, some "Service Unavailable"⟩,
             ⟨1 + 2, 1, "meteostat", 503, some "Service Unavailable"⟩],
          apiLogIdCounter := 1 + 3 }) ∧
    make_request "atlantis" "meteostat" 2 (fun _ => .resp ⟨503, "Service Unavailable"⟩)
        ⟨[⟨1, "GR", "greece"⟩], [], 1⟩ =
      (some ⟨503, "Service Unavailable"⟩, false, ⟨[⟨1, "GR", "greece"⟩], [], 1⟩) :=
  ⟨(claim_C3_make_request_503_three_attempts "greece" "meteostat"
      (fun _ => .resp ⟨503, "Service Unavailable"⟩) (fun _ => "Service Unavailable")
      (fun _ => rfl)).1 ⟨[⟨1, "GR", "greece"⟩], [], 1⟩ 1 (by decide) (by decide),
   (claim_C3_make_request_503_three_attempts "atlantis" "meteostat"
      (fun _ => .resp ⟨503, "Service Unavailable"⟩) (fun _ => "Service Unavailable")
      (fun _ => rfl)).2 ⟨[⟨1, "GR", "greece"⟩], [], 1⟩ (by decide)⟩

/-- Helper for C10: when every attempt within the fuel raises a transport
exception, the loop keeps the incoming response value and ends unsuccessfully. -/
theorem mrLoop_all_exn (oracle : Nat → Attempt) (country api_id : String) :
    ∀ (fuel rc : Nat) (resp : Option HttpResp) (db : ApiDBState),
      (∀ i, rc ≤ i → i < rc + fuel → ∃ m, oracle i = .exn m) →
      (mrLoop oracle country api_id rc fuel resp db).1 = resp ∧
      (mrLoop oracle country api_id rc fuel resp db).2.1 = false
  | 0, rc, resp, db, _ => ⟨rfl, rfl⟩
  | fuel + 1, rc, resp, db, h => by
    obtain ⟨m, hm⟩ := h rc (le_refl rc) (by omega)
    have ih := mrLoop_all_exn oracle country api_id fuel (rc + 1) resp
      ((log_api_call db country api_id 0 (some m)).1)
      (fun i h1 h2 => h i (by omega) (by omega))
    simpa [mrLoop, hm] using ih

/-- C10: when every attempt of a `make_request` call raises a transport
exception before a response is produced, the returned pair is (None, False):
the response slot keeps its initial None, so a caller must guard before
reading a status code from it. -/
theorem claim_C10_all_exceptions_returns_none_false
    (country api_id : String) (maxRetries : Nat) (oracle : Nat → Attempt)
    (db : ApiDBState)
    (h : ∀ i, i ≤ maxRetries → ∃ m, oracle i = .exn m) :
    (make_request country api_id maxRetries oracle db).1 = none ∧
    (make_request country api_id maxRetries oracle db).2.1 = false := by
  exact mrLoop_all_exn oracle country api_id (maxRetries + 1) 0 none db
    (fun i h1 h2 => h i (by omega))

/-- Witness for C10 at a constantly raising endpoint with max_retries = 2. -/
theorem claim_C10_witness :
    (make_request "greece" "meteostat" 2 (fun _ => .exn "connection refused")
      ⟨[⟨1, "GR", "greece"⟩], [], 1⟩).1 = none ∧
    (make_request "greece" "meteostat" 2 (fun _ => .exn "connection refused")
      ⟨[⟨1, "GR", "greece"⟩], [], 1⟩).2.1 = false :=
  claim_C10_all_exceptions_returns_none_false "greece" "meteostat" 2
    (fun _ => .exn "connection refused") ⟨[⟨1, "GR", "greece"⟩], [], 1⟩
    (fun _ _ => ⟨"connection refused", rfl⟩)

/-- Helper: appending a transform-log row leaves the country table unchanged. -/
@[simp]
theorem itl_countries (st : DBState) (e : TransformLogEntry) :
    (insert_transform_log st e).countries = st.countries := rfl

/-- Helper: appending a transform-log row leaves the fact table unchanged. -/
@[simp]
theorem itl_weatherData (st : DBState) (e : TransformLogEntry) :
    (insert_transform_log st e).weatherData = st.weatherData := rfl

/-- Helper: appending a transform-log row leaves the staging flag unchanged. -/
@[simp]
theorem itl_tempExists (st : DBState) (e : TransformLogEntry) :
    (insert_transform_log st e).tempWeatherTableExists = st.tempWeatherTableExists := rfl

/-- Helper: the transform log after an insert. -/
@[simp]
theorem itl_transformLog (st : DBState) (e : TransformLogEntry) :
    (insert_transform_log st e).transformLog = st.transformLog ++ [e] := rfl

/-- Helper: drawing a uuid leaves the country table unchanged. -/
@[simp]
theorem freshUuid_countries (st : DBState) : (freshUuid st).2.countries = st.countries := rfl

/-- Helper: drawing a uuid leaves the fact table unchanged. -/
@[simp]
theorem freshUuid_weatherData (st : DBState) : (freshUuid st).2.weatherData = st.weatherData := rfl

/-- Helper: drawing a uuid leaves the staging flag unchanged. -/
@[simp]
theorem freshUuid_tempExists (st : DBState) :
    (freshUuid st).2.tempWeatherTableExists = st.tempWeatherTableExists := rfl

/-- Helper: drawing a uuid leaves the transform log unchanged. -/
@[simp]
theorem freshUuid_transformLog (st : DBState) :
    (freshUuid st).2.transformLog = st.transformLog := rfl

/-- Helper: inversion of a successful staging-table insert. -/
theorem insert_temp_weather_data_ok {st st2 : DBState} {row : TempRow}
    (h : insert_temp_weather_data st row = .ok st2) :
    st2 = { st with tempWeather := st.tempWeather ++ [row] } ∧
      st.tempWeatherTableExists = true := by
  unfold insert_temp_weather_data at h
  split at h
  · exact ⟨(Except.ok.inj h).symm, by assumption⟩
  · cases h

/-- Helper: inversion of a successful fact-table insert. -/
theorem insert_weather_data_ok {st st2 : DBState} {row : WeatherRow}
    (h : insert_weather_data st row = .ok st2) :
    st2 = { st with weatherData := st.weatherData ++ [row] } ∧
      dateCastOk row.date = true := by
  unfold insert_weather_data at h
  split at h
  · exact ⟨(Except.ok.inj h).symm, by assumption⟩
  · cases h

/-- C5: a null value passes NumericRangeRule validation for any bounds (hence
for every optional numeric field of the weather schema), while RequiredRule —
the rule the weather schema attaches to country_id and date — fails on null
and on blank or whitespace-only strings. -/
theorem claim_C5_null_range_blank_required :
    (∀ mn mx : Option Int, ruleValidate (.numericRange mn mx) Json.null = true) ∧
    ruleValidate .required Json.null = false ∧
    (∀ s : String, (pyStrip s).isEmpty = true → ruleValidate .required (Json.str s) = false) ∧
    VRule.required ∈ schemaRules weatherSchema "country_id" ∧
    VRule.required ∈ schemaRules weatherSchema "date" := by
  refine ⟨?_, rfl, ?_, ?_, ?_⟩
  · intro mn mx
    rfl
  · intro s hs
    simp [ruleValidate, requiredValidate, hs]
  · decide
  · decide

/-- Witness for C5: the blank string fails Required, and a null wdir passes
its range rule. -/
theorem claim_C5_witness :
    ruleValidate .required (Json.str "   ") = false ∧
    ruleValidate (.numericRange (some 0) (some 360)) Json.null = true :=
  ⟨claim_C5_null_range_blank_required.2.2.1 "   " (by decide),
   claim_C5_null_range_blank_required.1 (some 0) (some 360)⟩

/-- Helper for C6: the first-match loop returns the strftime rendering under
the first format that parses. -/
theorem tryDateFormats_eq_find : ∀ (L : List (List FTok)) (s : String),
    tryDateFormats L s =
      (L.find? (fun f => (strptime s f).isSome)).bind
        (fun f => (strptime s f).map strftimeYmd)
  | [], _ => rfl
  | f :: fs, s => by
    cases hf : strptime s f with
    | some pd => simp [tryDateFormats, hf, List.find?_cons_of_pos, Option.isSome]
    | none =>
      rw [tryDateFormats, hf, List.find?_cons_of_neg _ (by simp [hf]),
        tryDateFormats_eq_find fs s]

/-- C6: `normalize_date` returns the canonical YYYY-MM-DD rendering obtained
from the first pattern in the fixed ordered list that parses the input, and
fails (None models the raised ValueError) exactly when no pattern parses it. -/
theorem claim_C6_normalize_date_first_pattern (s : String) :
    normalize_date s =
      (dateFormats.find? (fun f => (strptime s f).isSome)).bind
        (fun f => (strptime s f).map strftimeYmd) :=
  tryDateFormats_eq_find dateFormats s

/-- C9: a batch invocation over an existing directory with no JSON files
writes exactly one transform-log entry, with status EMPTY_DIRECTORY and
row_count 0, commits zero fact rows, and returns 0. -/
theorem claim_C9_empty_directory_one_entry (country yearMonth batchDate : String)
    (st : DBState) :
    ∃ st1 e, transform_weather_batch country yearMonth batchDate (.present []) st =
        .ok (st1, 0) ∧
      st1.transformLog = st.transformLog ++ [e] ∧
      e.status = "EMPTY_DIRECTORY" ∧
      e.row_count = 0 ∧
      st1.weatherData = st.weatherData :=
  ⟨_, _, rfl, rfl, rfl, rfl, rfl⟩

/-- Helper: the staging stages preserve the staging-table flag and the
country table. -/
theorem twbStage_preserves (country batchDate folderPath fileName tid : String)
    (st : DBState) (total : Nat) (rec0 : List (String × Json)) :
    (twbStage country batchDate folderPath fileName tid st total rec0).1.tempWeatherTableExists
        = st.tempWeatherTableExists ∧
      (twbStage country batchDate folderPath fileName tid st total rec0).1.countries
        = st.countries := by
  simp only [twbStage]
  split
  · split
    · simp
    · rename_i st2 h
      obtain ⟨rfl, _⟩ := insert_temp_weather_data_ok h
      split
      · simp
      · rename_i cid _
        split
        · simp
        · split
          · simp
          · rename_i st3 h3
            obtain ⟨rfl, _⟩ := insert_weather_data_ok h3
            simp
  · simp

/-- Helper: processing one file preserves the staging-table flag and the
country table. -/
theorem twbProcessFile_preserves (country yearMonth batchDate folderPath : String)
    (acc : DBState × Nat) (file : String × FileContent) :
    (twbProcessFile country yearMonth batchDate folderPath acc file).1.tempWeatherTableExists
        = acc.1.tempWeatherTableExists ∧
      (twbProcessFile country yearMonth batchDate folderPath acc file).1.countries
        = acc.1.countries := by
  simp only [twbProcessFile]
  split
  · simp
  · split
    · simp [twbUnexpected]
    · split
      · simp [twbUnexpected]
      · simp
      · split
        · exact ⟨(twbStage_preserves _ _ _ _ _ _ _ _).1.trans (by simp),
                 (twbStage_preserves _ _ _ _ _ _ _ _).2.trans (by simp)⟩
        · simp [twbUnexpected]

/-- Helper: the batch file loop preserves the staging-table flag and the
country table. -/
theorem twbFold_preserves (country yearMonth batchDate folderPath : String) :
    ∀ (files : List (String × FileContent)) (acc : DBState × Nat),
      ((files.foldl (twbProcessFile country yearMonth batchDate folderPath) acc).1.tempWeatherTableExists
        = acc.1.tempWeatherTableExists) ∧
      ((files.foldl (twbProcessFile country yearMonth batchDate folderPath) acc).1.countries
        = acc.1.countries)
  | [], _ => ⟨rfl, rfl⟩
  | f :: fs, acc => by
    have h1 := twbProcessFile_preserves country yearMonth batchDate folderPath acc f
    have h2 := twbFold_preserves country yearMonth batchDate folderPath fs
      (twbProcessFile country yearMonth batchDate folderPath acc f)
    simp only [List.foldl_cons]
    exact ⟨h2.1.trans h1.1, h2.2.trans h1.2⟩

/-- C4 is falsified by the code; this theorem records what the code does:
every invocation of the weather batch transform creates the staging table at
entry and finishes with it still existing — the early NO_FILES_FOUND and
EMPTY_DIRECTORY exits return before the drop statement, and the normal path
raises an AttributeError at line 147 because sql_templates defines no
DROP_TEMP_WEATHER_TABLE — and every invocation with at least one file to
process ends in that exception rather than returning. -/
theorem claim_C4_staging_table_created_but_never_dropped :
    (∀ country yearMonth batchDate folder st,
      (match transform_weather_batch country yearMonth batchDate folder st with
       | .ok p => p.1.tempWeatherTableExists
       | .error st1 => st1.tempWeatherTableExists) = true) ∧
    (∀ country yearMonth batchDate f fs st, ∃ st1,
      transform_weather_batch country yearMonth batchDate (.present (f :: fs)) st =
        .error st1) := by
  constructor
  · intro country yearMonth batchDate folder st
    cases folder with
    | missing => rfl
    | present files =>
      cases files with
      | nil => rfl
      | cons f fs =>
        have h := twbFold_preserves country yearMonth batchDate
          ("../extract/data/weather/" ++ country ++ "/" ++ yearMonth) (f :: fs)
          (createTempWeatherTable st, 0)
        simp only [transform_weather_batch, itl_tempExists, freshUuid_tempExists]
        rw [h.1]
        rfl
  · intro country yearMonth batchDate f fs st
    exact ⟨_, rfl⟩

/-- Helper: a successful country lookup returns the id of an existing row. -/
theorem get_country_id_some {cs : List Country} {name : String} {cid : Nat}
    (h : get_country_id cs name = some cid) : ∃ c ∈ cs, c.id = cid := by
  unfold get_country_id at h
  cases hf : cs.find? (fun c => c.name == pyLower name) with
  | none => rw [hf] at h; cases h
  | some c =>
    rw [hf] at h
    exact ⟨c, List.mem_of_find?_eq_some hf, Option.some.inj h⟩

/-- Helper: fact rows appearing after the staging stages of the batch loader
either pre-existed or carry the id that the country lookup resolved to; and an
unresolved country leaves the fact table untouched. -/
theorem twbStage_weatherData (country batchDate folderPath fileName tid : String)
    (st : DBState) (total : Nat) (rec0 : List (String × Json)) :
    (∀ row ∈ (twbStage country batchDate folderPath fileName tid st total rec0).1.weatherData,
        row ∈ st.weatherData ∨
          (get_country_id st.countries country = some row.country_id ∧
            ∃ c ∈ st.countries, c.id = row.country_id)) ∧
      (get_country_id st.countries country = none →
        (twbStage country batchDate folderPath fileName tid st total rec0).1.weatherData
          = st.weatherData) := by
  simp only [twbStage]
  split
  · split
    · exact ⟨fun row h => Or.inl (by simpa using h), fun _ => by simp⟩
    · rename_i st2 h2
      obtain ⟨rfl, _⟩ := insert_temp_weather_data_ok h2
      split
      · exact ⟨fun row h => Or.inl (by simpa using h), fun _ => by simp⟩
      · rename_i cid hcid
        have hcid2 : get_country_id st.countries country = some cid := by
          simpa using hcid
        split
        · exact ⟨fun row h => Or.inl (by simpa using h), fun _ => by simp⟩
        · split
          · exact ⟨fun row h => Or.inl (by simpa using h), fun _ => by simp⟩
          · rename_i st3 h3
            obtain ⟨rfl, _⟩ := insert_weather_data_ok h3
            constructor
            · intro row h
              have h2 : row ∈ st.weatherData ∨ row = mkWeatherRow (freshUuid st).1 cid rec0 := by
                simpa using h
              rcases h2 with hl | hr
              · exact Or.inl hl
              · subst hr
                exact Or.inr ⟨hcid2, get_country_id_some hcid2⟩
            · intro hnone
              rw [hcid2] at hnone
              cases hnone
  · exact ⟨fun row h => Or.inl (by simpa using h), fun _ => by simp⟩


/-- Helper: the same fact-table invariants for the per-record body of the
complete-file loader. -/
theorem processRecord_weatherData (country dirName fileName batchDate : String)
    (st : DBState) (r : Json) :
    (∀ row ∈ (match processRecord country dirName fileName batchDate st r with
              | .ok p => p.1.weatherData
              | .error e => e.1.weatherData),
        row ∈ st.weatherData ∨
          (get_country_id st.countries country = some row.country_id ∧
            ∃ c ∈ st.countries, c.id = row.country_id)) ∧
      (get_country_id st.countries country = none →
        (match processRecord country dirName fileName batchDate st r with
         | .ok p => p.1.weatherData
         | .error e => e.1.weatherData) = st.weatherData) := by
  cases r with
  | obj fields =>
    have key : ∀ p, processRecord country dirName fileName batchDate st (.obj fields) = .ok p →
        (p.1.weatherData = st.weatherData ∨
          ∃ cid, get_country_id st.countries country = some cid ∧
            p.1.weatherData = st.weatherData ++
              [mkWeatherRow (freshUuid st).1 cid
                (cleanRecordD country (pyGet fields "date") fields)]) := by
      intro p hp
      simp only [processRecord] at hp
      split at hp
      · split at hp
        · injection hp with hp2
          subst hp2
          exact Or.inl (by simp)
        · rename_i st2 h2
          obtain ⟨rfl, _⟩ := insert_temp_weather_data_ok h2
          split at hp
          · injection hp with hp2
            subst hp2
            exact Or.inl (by simp)
          · rename_i cid hcid
            have hcid2 : get_country_id st.countries country = some cid := by
              simpa using hcid
            split at hp
            · injection hp with hp2
              subst hp2
              exact Or.inl (by simp)
            · split at hp
              · injection hp with hp2
                subst hp2
                exact Or.inl (by simp)
              · rename_i st3 h3
                obtain ⟨rfl, _⟩ := insert_weather_data_ok h3
                injection hp with hp2
                subst hp2
                exact Or.inr ⟨cid, hcid2, by simp⟩
      · injection hp with hp2
        subst hp2
        exact Or.inl (by simp)
    have hok : ∃ p, processRecord country dirName fileName batchDate st (.obj fields) = .ok p := by
      simp only [processRecord]
      split
      · split
        · exact ⟨_, rfl⟩
        · split
          · exact ⟨_, rfl⟩
          · split
            · exact ⟨_, rfl⟩
            · split
              · exact ⟨_, rfl⟩
              · exact ⟨_, rfl⟩
      · exact ⟨_, rfl⟩
    obtain ⟨p, hp⟩ := hok
    rw [hp]
    constructor
    · intro row h
      have h0 : row ∈ p.1.weatherData := h
      rcases key p hp with hsame | ⟨cid, hcid, happ⟩
      · rw [hsame] at h0
        exact Or.inl h0
      · rw [happ] at h0
        rcases List.mem_append.mp h0 with hl | hr
        · exact Or.inl hl
        · have hrow : row = mkWeatherRow (freshUuid st).1 cid
              (cleanRecordD country (pyGet fields "date") fields) := by
            simpa using hr
          subst hrow
          exact Or.inr ⟨hcid, get_country_id_some hcid⟩
    · intro hnone
      show p.1.weatherData = st.weatherData
      rcases key p hp with hsame | ⟨cid, hcid, _⟩
      · exact hsame
      · rw [hcid] at hnone
        cases hnone
  | null => exact ⟨fun row h => Or.inl h, fun _ => rfl⟩
  | bool b => exact ⟨fun row h => Or.inl h, fun _ => rfl⟩
  | num q => exact ⟨fun row h => Or.inl h, fun _ => rfl⟩
  | str s => exact ⟨fun row h => Or.inl h, fun _ => rfl⟩
  | arr xs => exact ⟨fun row h => Or.inl h, fun _ => rfl⟩

/-- Helper: the fact-table invariants lift from the staging stages to the
whole per-file body of the batch loader. -/
theorem twbProcessFile_weatherData (country yearMonth batchDate folderPath : String)
    (acc : DBState × Nat) (file : String × FileContent) :
    (∀ row ∈ (twbProcessFile country yearMonth batchDate folderPath acc file).1.weatherData,
        row ∈ acc.1.weatherData ∨
          (get_country_id acc.1.countries country = some row.country_id ∧
            ∃ c ∈ acc.1.countries, c.id = row.country_id)) ∧
      (get_country_id acc.1.countries country = none →
        (twbProcessFile country yearMonth batchDate folderPath acc file).1.weatherData
          = acc.1.weatherData) := by
  simp only [twbProcessFile]
  split
  · exact ⟨fun row h => Or.inl (by simpa using h), fun _ => by simp⟩
  · split
    · exact ⟨fun row h => Or.inl (by simpa [twbUnexpected] using h), fun _ => by simp [twbUnexpected]⟩
    · split
      · exact ⟨fun row h => Or.inl (by simpa [twbUnexpected] using h), fun _ => by simp [twbUnexpected]⟩
      · exact ⟨fun row h => Or.inl (by simpa using h), fun _ => by simp⟩
      · split
        · exact ⟨fun row h => (twbStage_weatherData country batchDate folderPath file.1
              (freshUuid acc.1).1 (freshUuid acc.1).2 acc.2 _).1 row h,
            fun hn => (twbStage_weatherData country batchDate folderPath file.1
              (freshUuid acc.1).1 (freshUuid acc.1).2 acc.2 _).2 hn⟩
        · exact ⟨fun row h => Or.inl (by simpa [twbUnexpected] using h), fun _ => by simp [twbUnexpected]⟩

/-- Helper: a validated record whose country does not resolve is skipped with
one COUNTRY_NOT_FOUND transform-log entry and no fact row. -/
theorem processRecord_country_not_found (country dirName fileName batchDate : String)
    (st : DBState) (fields : List (String × Json))
    (hval : validateWeather (cleanRecordD country (pyGet fields "date") fields) = [])
    (htmp : st.tempWeatherTableExists = true)
    (hnone : get_country_id st.countries country = none) :
    ∃ st2, processRecord country dirName fileName batchDate st (.obj fields) = .ok (st2, false) ∧
      st2.weatherData = st.weatherData ∧
      ∃ e, st2.transformLog = st.transformLog ++ [e] ∧ e.status = "COUNTRY_NOT_FOUND" := by
  exact ⟨_, by simp [processRecord, hval, insert_temp_weather_data, htmp, hnone]; rfl,
    by simp, _, by simp; rfl, rfl⟩

/-- C2: in both staged-loader bodies a fact row is inserted only for records
whose country name resolved (via the country table) to the id of an existing
country row; when resolution yields no id the fact table is left untouched,
and a record that reached the resolution stage is skipped with one
COUNTRY_NOT_FOUND transform-log entry. -/
theorem claim_C2_resolve_then_insert :
    (∀ country dirName fileName batchDate st r,
      ∀ row ∈ (match processRecord country dirName fileName batchDate st r with
               | .ok p => p.1.weatherData
               | .error e => e.1.weatherData),
        row ∈ st.weatherData ∨
          (get_country_id st.countries country = some row.country_id ∧
            ∃ c ∈ st.countries, c.id = row.country_id)) ∧
    (∀ country yearMonth batchDate folderPath acc file,
      ∀ row ∈ (twbProcessFile country yearMonth batchDate folderPath acc file).1.weatherData,
        row ∈ acc.1.weatherData ∨
          (get_country_id acc.1.countries country = some row.country_id ∧
            ∃ c ∈ acc.1.countries, c.id = row.country_id)) ∧
    (∀ country dirName fileName batchDate st r,
      get_country_id st.countries country = none →
      (match processRecord country dirName fileName batchDate st r with
       | .ok p => p.1.weatherData
       | .error e => e.1.weatherData) = st.weatherData) ∧
    (∀ country yearMonth batchDate folderPath acc file,
      get_country_id acc.1.countries country = none →
      (twbProcessFile country yearMonth batchDate folderPath acc file).1.weatherData
        = acc.1.weatherData) ∧
    (∀ country dirName fileName batchDate st fields,
      validateWeather (cleanRecordD country (pyGet fields "date") fields) = [] →
      st.tempWeatherTableExists = true →
      get_country_id st.countries country = none →
      ∃ st2, processRecord country dirName fileName batchDate st (.obj fields) =
          .ok (st2, false) ∧
        st2.weatherData = st.weatherData ∧
        ∃ e, st2.transformLog = st.transformLog ++ [e] ∧ e.status = "COUNTRY_NOT_FOUND") :=
  ⟨fun country dirName fileName batchDate st r =>
      (processRecord_weatherData country dirName fileName batchDate st r).1,
   fun country yearMonth batchDate folderPath acc file =>
      (twbProcessFile_weatherData country yearMonth batchDate folderPath acc file).1,
   fun country dirName fileName batchDate st r =>
      (processRecord_weatherData country dirName fileName batchDate st r).2,
   fun country yearMonth batchDate folderPath acc file =>
      (twbProcessFile_weatherData country yearMonth batchDate folderPath acc file).2,
   fun country dirName fileName batchDate st fields hval htmp hnone =>
      processRecord_country_not_found country dirName fileName batchDate st fields
        hval htmp hnone⟩

/-- Witness for C2: a valid record for an unregistered country is skipped with
a COUNTRY_NOT_FOUND entry and no fact row. -/
theorem claim_C2_witness :
    ∃ st2, processRecord "spain" "d" "f.json" "2022-03-10"
        ⟨[⟨1, "GR", "greece"⟩], [], [], true, [], 0⟩
        (.obj [("date", Json.str "2022-03-10")]) = .ok (st2, false) ∧
      st2.weatherData = [] ∧
      ∃ e, st2.transformLog = [] ++ [e] ∧ e.status = "COUNTRY_NOT_FOUND" :=
  claim_C2_resolve_then_insert.2.2.2.2 "spain" "d" "f.json" "2022-03-10"
    ⟨[⟨1, "GR", "greece"⟩], [], [], true, [], 0⟩ [("date", Json.str "2022-03-10")]
    (by decide) rfl (by decide)

/-- Helper: the date slot of a clean record is the supplied date value. -/
@[simp]
theorem pyGet_cleanRecordD_date (country : String) (dv : Json) (fields : List (String × Json)) :
    pyGet (cleanRecordD country dv fields) "date" = dv := rfl

/-- Helper: the date column of a built fact row is the date slot of the
clean record. -/
@[simp]
theorem mkWeatherRow_date (wid : String) (cid : Nat) (rec0 : List (String × Json)) :
    (mkWeatherRow wid cid rec0).date = pyGet rec0 "date" := rfl

/-- Helper: a record that passes validation, staging, country resolution and
the fact-table insert is committed: one new fact row carrying the resolved id
and one SUCCESS transform-log entry with row_count 1. -/
theorem processRecord_success (country dirName fileName batchDate : String)
    (st : DBState) (fields : List (String × Json)) (cid : Nat)
    (hval : validateWeather (cleanRecordD country (pyGet fields "date") fields) = [])
    (htmp : st.tempWeatherTableExists = true)
    (hid : get_country_id st.countries country = some cid)
    (hcid : (cid == 0) = false)
    (hcast : dateCastOk (pyGet fields "date") = true) :
    ∃ st2 w e, processRecord country dirName fileName batchDate st (.obj fields) =
        .ok (st2, true) ∧
      st2.weatherData = st.weatherData ++ [w] ∧
      w.country_id = cid ∧
      st2.transformLog = st.transformLog ++ [e] ∧
      e.status = "SUCCESS" ∧
      e.row_count = 1 ∧
      st2.countries = st.countries ∧
      st2.tempWeatherTableExists = st.tempWeatherTableExists := by
  exact ⟨_, _, _,
    by simp [processRecord, hval, insert_temp_weather_data, htmp, hid, hcid,
      insert_weather_data, hcast]; rfl,
    by simp; rfl, rfl, by simp; rfl, rfl, rfl, by simp, by simp [htmp]⟩

/-- Helper: a record that fails validation is skipped with one
VALIDATION_ERROR entry joining the violation messages; nothing else changes. -/
theorem processRecord_validation_error (country dirName fileName batchDate : String)
    (st : DBState) (fields : List (String × Json)) (e0 : String) (es : List String)
    (hval : validateWeather (cleanRecordD country (pyGet fields "date") fields) = e0 :: es) :
    ∃ st2 e, processRecord country dirName fileName batchDate st (.obj fields) =
        .ok (st2, false) ∧
      st2.weatherData = st.weatherData ∧
      st2.transformLog = st.transformLog ++ [e] ∧
      e.status = "VALIDATION_ERROR: " ++ String.intercalate "; " (e0 :: es) ∧
      e.row_count = 0 ∧
      st2.countries = st.countries ∧
      st2.tempWeatherTableExists = st.tempWeatherTableExists := by
  exact ⟨_, _,
    by simp [processRecord, hval]; rfl,
    by simp, by simp; rfl, rfl, rfl, by simp, by simp⟩

/-- C1 (amended): a 3-record batch through the complete-file loader in which
record 2 fails validation and records 1 and 3 pass every stage commits
exactly 2 fact rows, which are still present at the end of the run (no
rollback), and writes exactly 4 transform-log entries: SUCCESS (row_count 1)
for record 1, VALIDATION_ERROR for record 2, SUCCESS (row_count 1) for
record 3, plus the batch rollup entry with status SUCCESS and row_count 2. -/
theorem claim_C1_amended_three_record_batch
    (country filePath batchDate : String) (st : DBState)
    (f1 f2 f3 : List (String × Json)) (cid : Nat) (e0 : String) (es : List String)
    (h1 : validateWeather (cleanRecordD country (pyGet f1 "date") f1) = [])
    (h2 : validateWeather (cleanRecordD country (pyGet f2 "date") f2) = e0 :: es)
    (h3 : validateWeather (cleanRecordD country (pyGet f3 "date") f3) = [])
    (hid : get_country_id st.countries country = some cid)
    (hcid : (cid == 0) = false)
    (htmp : st.tempWeatherTableExists = true)
    (hc1 : dateCastOk (pyGet f1 "date") = true)
    (hc3 : dateCastOk (pyGet f3 "date") = true) :
    ∃ st4 w1 w3 l1 l2 l3 l4,
      process_weather_complete_file country filePath batchDate
          (.json (.arr [.obj f1, .obj f2, .obj f3])) st = (st4, 2) ∧
      st4.weatherData = st.weatherData ++ [w1, w3] ∧
      w1.country_id = cid ∧ w3.country_id = cid ∧
      st4.transformLog = st.transformLog ++ [l1, l2, l3, l4] ∧
      l1.status = "SUCCESS" ∧ l1.row_count = 1 ∧
      l2.status = "VALIDATION_ERROR: " ++ String.intercalate "; " (e0 :: es) ∧
      l2.row_count = 0 ∧
      l3.status = "SUCCESS" ∧ l3.row_count = 1 ∧
      l4.status = "SUCCESS" ∧ l4.row_count = 2 := by
  obtain ⟨stA, w1, l1, he1, hwd1, hwc1, hlog1, hst1, hrc1, hco1, htf1⟩ :=
    processRecord_success country (pathDirname filePath) (pathBasename filePath)
      batchDate (freshUuid st).2 f1 cid h1 htmp hid hcid hc1
  obtain ⟨stB, l2, he2, hwd2, hlog2, hst2, hrc2, hco2, htf2⟩ :=
    processRecord_validation_error country (pathDirname filePath) (pathBasename filePath)
      batchDate stA f2 e0 es h2
  have htmp3 : stB.tempWeatherTableExists = true := htf2.trans (htf1.trans htmp)
  have hid3 : get_country_id stB.countries country = some cid := by
    rw [hco2, hco1]
    exact hid
  obtain ⟨stC, w3, l3, he3, hwd3, hwc3, hlog3, hst3, hrc3, hco3, htf3⟩ :=
    processRecord_success country (pathDirname filePath) (pathBasename filePath)
      batchDate stB f3 cid h3 htmp3 hid3 hcid hc3
  have hloop : pwcfLoop country (pathDirname filePath) (pathBasename filePath) batchDate
      (freshUuid st).2 0 [.obj f1, .obj f2, .obj f3] = .ok (stC, 2) := by
    simp only [pwcfLoop, he1, he2, he3]
    norm_num
  have hmain : process_weather_complete_file country filePath batchDate
      (.json (.arr [.obj f1, .obj f2, .obj f3])) st =
      (insert_transform_log stC
        (mkLogEntry (freshUuid st).1 batchDate
          (cvalOpt (get_country_id stC.countries country))
          (pathDirname filePath) (pathBasename filePath) 2 "SUCCESS"), 2) := by
    simp only [process_weather_complete_file, pyIter, hloop]
    norm_num
  refine ⟨_, w1, w3, l1, l2, l3,
    mkLogEntry (freshUuid st).1 batchDate (cvalOpt (get_country_id stC.countries country))
      (pathDirname filePath) (pathBasename filePath) 2 "SUCCESS",
    hmain, ?_, hwc1, hwc3, ?_,
    hst1, hrc1, hst2, hrc2, hst3, hrc3, rfl, rfl⟩
  · simp only [itl_weatherData]
    rw [hwd3, hwd2, hwd1]
    simp
  · simp only [itl_transformLog]
    rw [hlog3, hlog2, hlog1]
    simp

/-- C1 counterexample to the claim as stated: for a concrete batch of 3
records where record 2 fails validation (wdir 400) and records 1 and 3 pass
every stage, the complete-file loader writes 4 transform-log entries (the 3
per-record entries plus the batch rollup), not exactly 3. -/
theorem claim_C1_counterexample :
    (process_weather_complete_file "greece" "d/x.json" "2022-03-10"
        (.json (.arr [.obj [("date", Json.str "2022-03-10"), ("tavg", Json.num 5)],
                      .obj [("date", Json.str "2022-03-10"), ("wdir", Json.num 400)],
                      .obj [("date", Json.str "2022-03-11"), ("tmin", Json.num (-2))]]))
        ⟨[⟨1, "GR", "greece"⟩], [], [], true, [], 0⟩).1.transformLog.length = 4 ∧
    ¬ (process_weather_complete_file "greece" "d/x.json" "2022-03-10"
        (.json (.arr [.obj [("date", Json.str "2022-03-10"), ("tavg", Json.num 5)],
                      .obj [("date", Json.str "2022-03-10"), ("wdir", Json.num 400)],
                      .obj [("date", Json.str "2022-03-11"), ("tmin", Json.num (-2))]]))
        ⟨[⟨1, "GR", "greece"⟩], [], [], true, [], 0⟩).1.transformLog.length = 3 := by
  exact ⟨by decide, by decide⟩

/-- Witness for the amended C1 at the concrete batch of the counterexample:
2 committed fact rows still present at the end of the run, and the 4 entries
with their statuses and row counts. -/
theorem claim_C1_witness :
    ∃ st4 w1 w3 l1 l2 l3 l4,
      process_weather_complete_file "greece" "d/x.json" "2022-03-10"
          (.json (.arr [.obj [("date", Json.str "2022-03-10"), ("tavg", Json.num 5)],
                        .obj [("date", Json.str "2022-03-10"), ("wdir", Json.num 400)],
                        .obj [("date", Json.str "2022-03-11"), ("tmin", Json.num (-2))]]))
          ⟨[⟨1, "GR", "greece"⟩], [], [], true, [], 0⟩ = (st4, 2) ∧
      st4.weatherData = [] ++ [w1, w3] ∧
      w1.country_id = 1 ∧ w3.country_id = 1 ∧
      st4.transformLog = [] ++ [l1, l2, l3, l4] ∧
      l1.status = "SUCCESS" ∧ l1.row_count = 1 ∧
      l2.status = "VALIDATION_ERROR: " ++ String.intercalate "; "
        (("Field " ++ apos ++ "wdir" ++ apos ++ " must be between 0 and 360") :: []) ∧
      l2.row_count = 0 ∧
      l3.status = "SUCCESS" ∧ l3.row_count = 1 ∧
      l4.status = "SUCCESS" ∧ l4.row_count = 2 :=
  claim_C1_amended_three_record_batch "greece" "d/x.json" "2022-03-10"
    ⟨[⟨1, "GR", "greece"⟩], [], [], true, [], 0⟩ _ _ _ 1 _ []
    (by decide) (by decide) (by decide) (by decide) (by decide) rfl (by decide) (by decide)

/-- C7 evaluation (the claim is contradicted by the code): feeding the
documented complete-file payload, the dict wrapper is iterated over its keys,
`record.get` is called on the string key, the raised AttributeError is caught
by the outer handler, and the run commits 0 fact rows and writes exactly one
transform-log entry with an UNEXPECTED_ERROR status — not the VALIDATION_ERROR
entry the claim expects. -/
theorem claim_C7_wrapped_payload_unexpected_error :
    process_weather_complete_file "greece" "data/weather/greece/complete.json" "2022-03-10"
        (.json (.obj [("data", .arr [.obj [("date", Json.str "2022-03-10"),
          ("tavg", Json.num 5), ("wdir", Json.num 400)]])]))
        ⟨[⟨1, "GR", "greece"⟩], [], [], true, [], 0⟩ =
      (⟨[⟨1, "GR", "greece"⟩], [], [], true,
        [⟨"uuid-0", "2022-03-10", .num 1, "data/weather/greece", "complete.json", 0,
          "UNEXPECTED_ERROR: " ++ apos ++ "str" ++ apos ++ " object has no attribute " ++
            apos ++ "get" ++ apos⟩], 1⟩, 0) ∧
    ("UNEXPECTED_ERROR: " ++ apos ++ "str" ++ apos ++ " object has no attribute " ++
        apos ++ "get" ++ apos) ≠
      ("VALIDATION_ERROR: Field " ++ apos ++ "wdir" ++ apos ++ " must be between 0 and 360") := by
  exact ⟨rfl, by decide⟩
